import Mathlib

/-!
Verification development for the `ddd` diagnostic-dump ingestion core.

The Go sources verified here are:
  * `internal/detector/detector.go` — file-type detection (`DetectFileType`
    and its helpers);
  * `internal/reporters/ttop_parser.go` — the lenient `ParseTTop` parser;
  * `internal/reporters/iostat_parser.go` — the strict `ParseIOStat` parser.

Modelling conventions (shallow embedding):
  * Go strings and byte slices are modelled as `List Char` (`Str`); all inputs
    of interest are ASCII text.  `strings.ToLower` is modelled on the ASCII
    range only.
  * `bufio.Scanner` splits the input into lines and, over an in-memory buffer,
    can only fail on oversized tokens; parser inputs are modelled as the list
    of scanned lines, and the scanner's error channel is modelled as never
    firing.  Line numbers are 1-based indices into that list, exactly as the
    `lineNumber` counter in the Go code.
  * Float values are carried syntactically: the parsers only validate numeric
    tokens with `strconv.ParseFloat` and store the parsed value without doing
    arithmetic on it, so a float value is modelled as the accepted token
    (`GoFloat`).  `goParseFloat` validates Go float syntax (decimal and hex
    mantissas, exponents, signed inf / infinity and nan); literals with
    underscore digit separators and finite-range overflow (`ErrRange`) are
    not modelled.
  * `time.Time` is modelled as the `GoTime` record of displayed fields;
    `time.Parse` for the two fixed layouts used by the parsers ("15:04:05"
    and "01/02/06 15:04:05") is modelled including digit-count rules, range
    checks and month-aware day validation.
  * Go error values built with `fmt.Errorf("line %d: ...")` are modelled as
    the structured pair `IOErr` of the line number and the message text after
    the "line %d: " prefix; the text of wrapped (`%w`) `strconv`/`time`
    causes is elided where noted.
  * ZIP/TAR/GZIP decoding is Go standard library, not repository code; the
    detector is parameterised by abstract entry-name extractors
    (`zipEntryNames`, `tarEntryNames`) that return the names of the regular
    (non-directory) members, and the empty list when the buffer is
    unreadable in that format — exactly the interface `extractZipFileList` /
    `extractTarFileList` present to `detectArchiveContent`.
-/

/-- Strings and byte buffers are lists of characters. -/
abbrev Str := List Char

/-- Whitespace per Go `unicode.IsSpace` restricted to the code points the
Latin-1 fast path recognises: `'\t'`, `'\n'`, `'\v'`, `'\f'`, `'\r'`, `' '`,
U+0085 (NEL) and U+00A0 (NBSP). -/
def isGoSpace (c : Char) : Bool :=
  c = ' ' || ('\t' ≤ c && c ≤ '\r') || c.toNat = 0x85 || c.toNat = 0xA0

/-- Go `strings.TrimSpace`: drop leading and trailing whitespace. -/
def goTrimSpace (s : Str) : Str :=
  ((s.dropWhile isGoSpace).reverse.dropWhile isGoSpace).reverse

/-- Go `strings.HasPrefix s pfx`. -/
def goStartsWith (s pfx : Str) : Bool :=
  List.isPrefixOf pfx s

/-- Go `strings.TrimPrefix`. -/
def goTrimPfx (s pfx : Str) : Str :=
  if goStartsWith s pfx then s.drop pfx.length else s

/-- Go `strings.TrimSuffix`. -/
def goTrimSfx (s sfx : Str) : Str :=
  if List.isSuffixOf sfx s then s.take (s.length - sfx.length) else s

/-- Go `strings.Contains s sub`. -/
def containsSubstr (s sub : Str) : Bool :=
  match s with
  | [] => sub.isEmpty
  | c :: t => List.isPrefixOf sub (c :: t) || containsSubstr t sub

/-- Go `strings.Index s sub` (first occurrence), `none` for -1. -/
def findSubstr (s sub : Str) : Option Nat :=
  if List.isPrefixOf sub s then some 0
  else
    match s with
    | [] => none
    | _ :: t => (findSubstr t sub).map (· + 1)

/-- Helper of `goFields`: `cur` is the reversed current field being
accumulated; a whitespace character closes it. -/
def goFieldsAux (cur : Str) : Str → List Str
  | [] => if cur = [] then [] else [cur.reverse]
  | c :: rest =>
    if isGoSpace c then
      if cur = [] then goFieldsAux [] rest
      else cur.reverse :: goFieldsAux [] rest
    else goFieldsAux (c :: cur) rest

/-- Go `strings.Fields`: the maximal runs of non-whitespace characters, in
order (whitespace-separated fields, no empties). -/
def goFields (s : Str) : List Str :=
  goFieldsAux [] s

/-- Go `strings.Split s ","` (single-character separator). -/
def splitOnComma (s : Str) : List Str :=
  s.splitOn ','

/-- ASCII lowercasing of one character (Go `unicode.ToLower` on ASCII). -/
def goLowerChar (c : Char) : Char :=
  if 'A' ≤ c ∧ c ≤ 'Z' then Char.ofNat (c.toNat + 32) else c

/-- Go `strings.ToLower`, modelled on the ASCII range. -/
def goToLower (s : Str) : Str :=
  s.map goLowerChar

/-- Go `path/filepath.Ext`: the suffix beginning at the final dot in the final
path element ('/' is the only separator on linux); empty when there is none.
Helper scanning the reversed path. -/
def goExtRevAux (acc : Str) : Str → Str
  | [] => []
  | c :: rest =>
    if c = '/' then []
    else if c = '.' then c :: acc
    else goExtRevAux (c :: acc) rest

/-- Go `path/filepath.Ext`. -/
def goExt (path : Str) : Str :=
  goExtRevAux [] path.reverse

/-- Go `path/filepath.Base`: strip trailing separators, take the final
element; "." for the empty path, "/" when the path is all separators. -/
def goBase (path : Str) : Str :=
  if path = [] then ['.']
  else
    let p1 := (path.reverse.dropWhile (fun c => c = '/')).reverse
    let p2 := (p1.reverse.takeWhile (fun c => c ≠ '/')).reverse
    if p2 = [] then ['/'] else p2

/-- Decimal digit test. -/
def isDigitChar (c : Char) : Bool :=
  '0' ≤ c && c ≤ '9'

/-- Hexadecimal digit test. -/
def isHexDigitChar (c : Char) : Bool :=
  isDigitChar c || ('a' ≤ c && c ≤ 'f') || ('A' ≤ c && c ≤ 'F')

/-- Numeric value of a decimal digit character. -/
def digitVal (c : Char) : Nat :=
  c.toNat - 48

/-- Value of a nonempty all-digit string. -/
def digitsToNat (s : Str) : Nat :=
  s.foldl (fun a c => a * 10 + digitVal c) 0

/-- Go `strconv.Atoi` (64-bit platform): optional sign, nonempty decimal
digits, result within the `int64` range. -/
def goAtoi (s : Str) : Option Int :=
  match s with
  | [] => none
  | _ =>
    let (neg, digits) :=
      match s with
      | '+' :: t => (false, t)
      | '-' :: t => (true, t)
      | t => (false, t)
    if digits = [] then none
    else if digits.all isDigitChar then
      let n := digitsToNat digits
      if neg then
        if n ≤ 2 ^ 63 then some (-(n : Int)) else none
      else
        if n < 2 ^ 63 then some (n : Int) else none
    else none

/-- A float value as stored by the parsers: the accepted numeric token (the
parsers never compute with float values, only validate and display them). -/
structure GoFloat where
  raw : Str
deriving DecidableEq, Repr

/-- The float value 0.0 (used as the Go zero value and explicit default). -/
def gfZero : GoFloat := ⟨['0']⟩

/-- Mantissa scan of `strconv.ParseFloat`: consume digits and at most one
dot; returns whether at least one digit was seen, and the rest. -/
def scanMantissa (isDig : Char → Bool) : Str → Bool → Bool → (Bool × Str)
  | [], _, sawDigit => (sawDigit, [])
  | c :: r, sawDot, sawDigit =>
    if isDig c then scanMantissa isDig r sawDot true
    else if c = '.' && !sawDot then scanMantissa isDig r true sawDigit
    else (sawDigit, c :: r)

/-- Exponent part of `strconv.ParseFloat`: optional sign then one or more
decimal digits, consuming the whole rest. -/
def expScan (r : Str) : Bool :=
  let r2 := match r with
    | '+' :: x => x
    | '-' :: x => x
    | x => x
  !r2.isEmpty && r2.all isDigitChar

/-- Decimal form accepted by `strconv.ParseFloat` (after the sign): digits
with at most one dot and at least one digit, then an optional e/E exponent. -/
def decimalFloatSyntax (t : Str) : Bool :=
  match scanMantissa isDigitChar t false false with
  | (true, []) => true
  | (true, e :: r) => (e = 'e' || e = 'E') && expScan r
  | (false, _) => false

/-- Syntax accepted by Go `strconv.ParseFloat(s, 64)`: optionally signed
inf/infinity (case-insensitive), unsigned nan (case-insensitive), hex
mantissa with mandatory p-exponent, or decimal mantissa with optional
e-exponent.  Underscore digit separators and finite-range overflow are not
modelled. -/
def validFloatSyntax (sIn : Str) : Bool :=
  let lower := goToLower sIn
  if lower = ("inf").toList || lower = ("+inf").toList || lower = ("-inf").toList ||
      lower = ("infinity").toList || lower = ("+infinity").toList ||
      lower = ("-infinity").toList || lower = ("nan").toList then true
  else
    let t := match sIn with
      | '+' :: r => r
      | '-' :: r => r
      | r => r
    match t with
    | '0' :: x :: r =>
      if x = 'x' || x = 'X' then
        match scanMantissa isHexDigitChar r false false with
        | (true, p :: r2) => (p = 'p' || p = 'P') && expScan r2
        | _ => false
      else decimalFloatSyntax t
    | _ => decimalFloatSyntax t

/-- Go `strconv.ParseFloat(s, 64)` as used by the parsers: `some` exactly
when the token is well-formed, carrying the token as the value. -/
def goParseFloat (s : Str) : Option GoFloat :=
  if validFloatSyntax s then some ⟨s⟩ else none

/-- A wall-clock time as displayed by Go `time.Time` (fields the parsers
construct and compare; location and sub-second precision are not used). -/
structure GoTime where
  year : Nat
  month : Nat
  day : Nat
  hour : Nat
  minute : Nat
  second : Nat
deriving DecidableEq, Repr

/-- Fixed-width two-digit number (Go `time` package `getnum` with
`fixed = true`). -/
def getnum2 : Str → Option (Nat × Str)
  | a :: b :: r =>
    if isDigitChar a ∧ isDigitChar b then some (digitVal a * 10 + digitVal b, r)
    else none
  | _ => none

/-- One- or two-digit number (Go `time` package `getnum` with
`fixed = false`, used for the hour in layouts "15:..."). -/
def getnum12 : Str → Option (Nat × Str)
  | [] => none
  | [a] => if isDigitChar a then some (digitVal a, []) else none
  | a :: b :: r =>
    if isDigitChar a then
      if isDigitChar b then some (digitVal a * 10 + digitVal b, r)
      else some (digitVal a, b :: r)
    else none

/-- Expect a literal layout character. -/
def expectChar (c : Char) : Str → Option Str
  | d :: r => if d = c then some r else none
  | [] => none

/-- Gregorian leap year. -/
def isLeapYear (y : Nat) : Bool :=
  y % 4 = 0 && (y % 100 ≠ 0 || y % 400 = 0)

/-- Days in a month (Go `time.daysIn`). -/
def daysIn (month year : Nat) : Nat :=
  if month = 2 then (if isLeapYear year then 29 else 28)
  else if month = 4 ∨ month = 6 ∨ month = 9 ∨ month = 11 then 30
  else 31

/-- Go `time.Parse("15:04:05", s)`: 1-2 digit hour, ':', two-digit minute,
':', two-digit second, full consumption, with range checks. -/
def goParseClock (sIn : Str) : Option (Nat × Nat × Nat) := do
  let (h, r1) ← getnum12 sIn
  let r2 ← expectChar ':' r1
  let (mi, r3) ← getnum2 r2
  let r4 ← expectChar ':' r3
  let (sec, r5) ← getnum2 r4
  if r5 = [] ∧ h < 24 ∧ mi < 60 ∧ sec < 60 then some (h, mi, sec) else none

/-- Go `time.Parse("01/02/06 15:04:05", s)`: fixed two-digit month, day and
year (69..99 → 19xx, 00..68 → 20xx), one literal space, then the clock;
full consumption, with range checks including month-aware day validation. -/
def goParseDateTime (sIn : Str) : Option GoTime := do
  let (mo, r1) ← getnum2 sIn
  let r2 ← expectChar '/' r1
  let (d, r3) ← getnum2 r2
  let r4 ← expectChar '/' r3
  let (yy, r5) ← getnum2 r4
  let year := if yy ≥ 69 then 1900 + yy else 2000 + yy
  let r6 ← expectChar ' ' r5
  let (h, r7) ← getnum12 r6
  let r8 ← expectChar ':' r7
  let (mi, r9) ← getnum2 r8
  let r10 ← expectChar ':' r9
  let (sec, r11) ← getnum2 r10
  if r11 = [] ∧ 1 ≤ mo ∧ mo ≤ 12 ∧ 1 ≤ d ∧ d ≤ daysIn mo year ∧
      h < 24 ∧ mi < 60 ∧ sec < 60 then
    some ⟨year, mo, d, h, mi, sec⟩
  else none

/-- The file type tags of `internal/detector/detector.go` (the string
constants `FileTypeJFR` .. `FileTypeUnknown`). -/
inductive FileType where
  | jfr
  | ttop
  | iostat
  | archive
  | unknown
deriving DecidableEq, BEq, Repr

/-- Archive extensions recognised by `isArchive`. -/
def archiveExts : List Str :=
  [(".zip").toList, (".tar").toList, (".tar.gz").toList, (".tgz").toList, (".gz").toList]

/-- Go `isArchive`: membership in the fixed extension list. -/
def isArchive (ext : Str) : Bool :=
  archiveExts.any (fun a => a = ext)

/-- Go `detectFileTypeByName`: filename-only classification used for archive
members and as the non-archive fallback. -/
def detectFileTypeByName (filename : Str) : FileType :=
  let ext := goToLower (goExt filename)
  let baseName := goToLower (goBase filename)
  if ext = (".jfr").toList then .jfr
  else if containsSubstr baseName (("ttop").toList) ∧
      (ext = (".txt").toList ∨ ext = []) then .ttop
  else if containsSubstr baseName (("iostat").toList) then .iostat
  else .unknown

/-- Go `analyzeFileList`: tally the filename-only classification of each
member and return the first non-zero tally in priority order. -/
def analyzeFileList (files : List Str) : FileType :=
  let jfrCount := files.countP (fun f => detectFileTypeByName f == FileType.jfr)
  let ttopCount := files.countP (fun f => detectFileTypeByName f == FileType.ttop)
  let iostatCount := files.countP (fun f => detectFileTypeByName f == FileType.iostat)
  if jfrCount > 0 then .jfr
  else if ttopCount > 0 then .ttop
  else if iostatCount > 0 then .iostat
  else .archive

/-- Go `detectArchiveContent`, parameterised by the two stdlib entry-name
extractors (`extractZipFileList`, then `extractTarFileList` which itself
tries gzip-wrapped TAR before plain TAR): analyze the first non-empty entry
list, else `archive`. -/
def detectArchiveContent (zipEntryNames tarEntryNames : Str → List Str)
    (content : Str) : FileType :=
  if (zipEntryNames content).length > 0 then analyzeFileList (zipEntryNames content)
  else if (tarEntryNames content).length > 0 then analyzeFileList (tarEntryNames content)
  else .archive

/-- Go `isTTopFile`: the first 1000 bytes contain "PID" and "USER" and
either "TIME" or "%CPU". -/
def isTTopFile (content : Str) : Bool :=
  let contentStr := content.take 1000
  containsSubstr contentStr (("PID").toList) &&
    containsSubstr contentStr (("USER").toList) &&
    (containsSubstr contentStr (("TIME").toList) ||
      containsSubstr contentStr (("%CPU").toList))

/-- Go `isIOStatFile`: the first 1000 bytes contain "Device" and one of
"tps", "kB_read/s", "r/s". -/
def isIOStatFile (content : Str) : Bool :=
  let contentStr := content.take 1000
  containsSubstr contentStr (("Device").toList) &&
    (containsSubstr contentStr (("tps").toList) ||
      containsSubstr contentStr (("kB_read/s").toList) ||
      containsSubstr contentStr (("r/s").toList))

/-- Go `DetectFileType`: archives are classified by member names; otherwise
content sniffing (ttop then iostat) takes priority, then the filename-only
fallback. -/
def DetectFileType (zipEntryNames tarEntryNames : Str → List Str)
    (filename content : Str) : FileType :=
  let ext := goToLower (goExt filename)
  if isArchive ext then detectArchiveContent zipEntryNames tarEntryNames content
  else if content.length > 0 ∧ isTTopFile content then .ttop
  else if content.length > 0 ∧ isIOStatFile content then .iostat
  else
    let baseName := goToLower (goBase filename)
    if ext = (".jfr").toList then .jfr
    else if containsSubstr baseName (("ttop").toList) ∧
        (ext = (".txt").toList ∨ ext = []) then .ttop
    else if containsSubstr baseName (("iostat").toList) then .iostat
    else .unknown

/-- `ThreadInfo` of `ttop_parser.go`. -/
structure ThreadInfo where
  pid : Int
  user : Str
  cpu : GoFloat
  mem : GoFloat
  command : Str
deriving DecidableEq, Repr

/-- `ThreadCounts` of `ttop_parser.go`. -/
structure ThreadCounts where
  total : Int
  running : Int
  sleeping : Int
  stopped : Int
  zombie : Int
deriving DecidableEq, Repr

/-- `SystemMemory` of `ttop_parser.go`. -/
structure SystemMemory where
  memTotal : GoFloat
  memFree : GoFloat
  memUsed : GoFloat
  memBuffCache : GoFloat
  swapTotal : GoFloat
  swapFree : GoFloat
  swapUsed : GoFloat
  memAvail : GoFloat
deriving DecidableEq, Repr

/-- The zero `SystemMemory` (`&SystemMemory{}` in Go). -/
def zeroSystemMemory : SystemMemory :=
  ⟨gfZero, gfZero, gfZero, gfZero, gfZero, gfZero, gfZero, gfZero⟩

/-- The zero `ThreadCounts` (`&ThreadCounts{}` in Go). -/
def zeroThreadCounts : ThreadCounts :=
  ⟨0, 0, 0, 0, 0⟩

/-- `TTopSnapshot` of `ttop_parser.go`. -/
structure TTopSnapshot where
  timestamp : GoTime
  threadCounts : Option ThreadCounts
  systemMemory : Option SystemMemory
  threads : List ThreadInfo
deriving DecidableEq, Repr

/-- `TTopReportData` of `ttop_parser.go`. -/
structure TTopReportData where
  snapshots : List TTopSnapshot
deriving DecidableEq, Repr

/-- Go `parseTimestampFromTopLine`: the third whitespace field parsed as
"15:04:05", combined with today's date (taken from `now`). -/
def parseTimestampFromTopLine (now : GoTime) (line : Str) : Option GoTime :=
  match goFields line with
  | _ :: _ :: timeStr :: _ =>
    match goParseClock timeStr with
    | some (h, mi, sec) => some ⟨now.year, now.month, now.day, h, mi, sec⟩
    | none => none
  | _ => none

/-- Go `parseThreadCountsLine`: strip the "Threads:" prefix, split on commas
into exactly 5 parts, and fill the count matching each label; malformed
parts are skipped. -/
def parseThreadCountsLine (line : Str) : Option ThreadCounts :=
  let l1 := goTrimSpace (goTrimPfx line (("Threads:").toList))
  let parts := splitOnComma l1
  if parts.length ≠ 5 then none
  else
    some (parts.foldl
      (fun counts part =>
        match goFields (goTrimSpace part) with
        | f0 :: f1 :: _ =>
          match goAtoi f0 with
          | none => counts
          | some count =>
            if f1 = ("total").toList then { counts with total := count }
            else if f1 = ("running").toList then { counts with running := count }
            else if f1 = ("sleeping").toList then { counts with sleeping := count }
            else if f1 = ("stopped").toList then { counts with stopped := count }
            else if f1 = ("zombie").toList then { counts with zombie := count }
            else counts
        | _ => counts)
      zeroThreadCounts)

/-- Go `parseMemoryLine`: strip the "MiB Mem" prefix and an optional colon,
split on commas into exactly 4 parts (else leave the record unchanged — the
returned error is swallowed by the caller), and fill the figure matching
each label. -/
def parseMemoryLine (line : Str) (memory : SystemMemory) : SystemMemory :=
  let l1 := goTrimSpace (goTrimPfx line (("MiB Mem").toList))
  let l2 :=
    if goStartsWith l1 ((":").toList) then goTrimSpace (goTrimPfx l1 ((":").toList))
    else l1
  let parts := splitOnComma l2
  if parts.length ≠ 4 then memory
  else
    parts.foldl
      (fun mem part =>
        match goFields (goTrimSpace part) with
        | f0 :: f1 :: _ =>
          match goParseFloat f0 with
          | none => mem
          | some value =>
            if f1 = ("total").toList then { mem with memTotal := value }
            else if f1 = ("free").toList then { mem with memFree := value }
            else if f1 = ("used").toList then { mem with memUsed := value }
            else if f1 = ("buff/cache").toList then { mem with memBuffCache := value }
            else mem
        | _ => mem)
      memory

/-- Swap-part core of Go `parseSwapLine`: trim a trailing period, split on
commas into exactly 3 parts (else leave the record unchanged), and fill the
figure matching each label (label with a trailing period stripped). -/
def parseSwapCore (swapPart : Str) (memory : SystemMemory) : SystemMemory :=
  let sp := goTrimSpace (goTrimSfx swapPart ((".").toList))
  let parts := splitOnComma sp
  if parts.length ≠ 3 then memory
  else
    parts.foldl
      (fun mem part =>
        match goFields (goTrimSpace part) with
        | f0 :: f1 :: _ =>
          match goParseFloat f0 with
          | none => mem
          | some value =>
            let fieldType := goTrimSfx f1 ((".").toList)
            if fieldType = ("total").toList then { mem with swapTotal := value }
            else if fieldType = ("free").toList then { mem with swapFree := value }
            else if fieldType = ("used").toList then { mem with swapUsed := value }
            else mem
        | _ => mem)
      memory

/-- Go `parseSwapLine`: strip the "MiB Swap:" prefix; if "avail Mem" occurs,
take the last whitespace field before it as the available-memory figure and
remove it (when it is a literal suffix) from the swap part; then parse the
swap part with `parseSwapCore`. -/
def parseSwapLine (line0 : Str) (memory : SystemMemory) : SystemMemory :=
  let line := goTrimSpace (goTrimPfx line0 (("MiB Swap:").toList))
  match findSubstr line (("avail Mem").toList) with
  | some availIndex =>
    let beforeAvail := line.take availIndex
    match (goFields beforeAvail).getLast? with
    | some availValue =>
      let mem1 :=
        match goParseFloat availValue with
        | some value => { memory with memAvail := value }
        | none => memory
      parseSwapCore (goTrimSpace (goTrimSfx beforeAvail availValue)) mem1
    | none => parseSwapCore [] memory
  | none => parseSwapCore line memory

/-- Go `parseThreadLine`: at least 12 whitespace fields; field 0 is an
integer PID (else the row is rejected), field 1 the user, field 8 the CPU%
and field 9 the MEM% (each defaulting to 0.0 when unparsable), fields 11..
joined by single spaces the command. -/
def parseThreadLine (line : Str) : Option ThreadInfo :=
  let fields := goFields line
  if fields.length < 12 then none
  else
    match goAtoi (fields.getD 0 []) with
    | none => none
    | some pid =>
      some { pid := pid
             user := fields.getD 1 []
             cpu := (goParseFloat (fields.getD 8 [])).getD gfZero
             mem := (goParseFloat (fields.getD 9 [])).getD gfZero
             command := List.intercalate ([' ']) (fields.drop 11) }

/-- The accumulation state of `ParseTTop`: the finished snapshots and the
open one (`currentSnapshot`, nilable). -/
structure TTopState where
  snapshots : List TTopSnapshot
  current : Option TTopSnapshot
deriving DecidableEq, Repr

/-- Body of one `ParseTTop` loop step, on the already-trimmed line.  A
"top - " line finalizes the open snapshot and opens a new one (falling back
to `now` when the embedded time does not parse); the remaining four
handlers all require an open snapshot and otherwise leave the state
unchanged. -/
def stepTTopLine (now : GoTime) (s : TTopState) (line : Str) : TTopState :=
  if line = [] then s
  else if goStartsWith line (("top - ").toList) then
    { snapshots := s.snapshots ++ s.current.toList
      current := some { timestamp := (parseTimestampFromTopLine now line).getD now
                        threadCounts := none
                        systemMemory := none
                        threads := [] } }
  else
    match s.current with
    | none => s
    | some c =>
      if goStartsWith line (("Threads:").toList) then
        let c2 := match parseThreadCountsLine line with
          | some tc => { c with threadCounts := some tc }
          | none => c
        { s with current := some c2 }
      else if goStartsWith line (("MiB Mem").toList) then
        let mem2 := parseMemoryLine line (c.systemMemory.getD zeroSystemMemory)
        { s with current := some { c with systemMemory := some mem2 } }
      else if goStartsWith line (("MiB Swap").toList) then
        let mem2 := parseSwapLine line (c.systemMemory.getD zeroSystemMemory)
        { s with current := some { c with systemMemory := some mem2 } }
      else
        match parseThreadLine line with
        | some ti => { s with current := some { c with threads := c.threads ++ [ti] } }
        | none => s

/-- One line step of the `ParseTTop` loop: trim, then dispatch. -/
def stepTTop (now : GoTime) (s : TTopState) (raw : Str) : TTopState :=
  stepTTopLine now s (goTrimSpace raw)

/-- The `ParseTTop` loop over the scanned lines plus the unconditional
final append of the still-open snapshot. -/
def parseTTopLines (now : GoTime) (lines : List Str) : TTopReportData :=
  let final := List.foldl (stepTTop now) ⟨[], none⟩ lines
  ⟨final.snapshots ++ final.current.toList⟩

/-- Go `ParseTTop`: the error channel is `scanner.Err()`, which never fires
for an in-memory buffer (see the module docstring), so the result is always
`ok`. -/
def ParseTTop (now : GoTime) (lines : List Str) : Except Str TTopReportData :=
  .ok (parseTTopLines now lines)

/-- `CPUStats` of `iostat_parser.go`. -/
structure CPUStats where
  user : GoFloat
  nice : GoFloat
  system : GoFloat
  iowait : GoFloat
  steal : GoFloat
  idle : GoFloat
deriving DecidableEq, Repr

/-- `DeviceStats` of `iostat_parser.go`: the device name plus 22 numeric
columns. -/
structure DeviceStats where
  device : Str
  readsPerS : GoFloat
  readKBPerS : GoFloat
  readReqMergedPerS : GoFloat
  readReqMergedPct : GoFloat
  readAwait : GoFloat
  readReqSize : GoFloat
  writesPerS : GoFloat
  writeKBPerS : GoFloat
  writeReqMergedPerS : GoFloat
  writeReqMergedPct : GoFloat
  writeAwait : GoFloat
  writeReqSize : GoFloat
  discardsPerS : GoFloat
  discardKBPerS : GoFloat
  discardReqMergedPerS : GoFloat
  discardReqMergedPct : GoFloat
  discardAwait : GoFloat
  discardReqSize : GoFloat
  flushesPerS : GoFloat
  flushAwait : GoFloat
  avgQueueSize : GoFloat
  utilization : GoFloat
deriving DecidableEq, Repr

/-- `IOStatSnapshot` of `iostat_parser.go`. -/
structure IOStatSnapshot where
  timestamp : GoTime
  cpuStats : Option CPUStats
  devices : List DeviceStats
deriving DecidableEq, Repr

/-- `IOStatReportData` of `iostat_parser.go`. -/
structure IOStatReportData where
  systemInfo : Str
  snapshots : List IOStatSnapshot
deriving DecidableEq, Repr

/-- A `ParseIOStat` structural error: the 1-based line number and the
message text following the "line %d: " prefix of the `fmt.Errorf` string. -/
structure IOErr where
  line : Nat
  msg : Str
deriving DecidableEq, Repr

/-- Go `isTimestampLine`: at least two whitespace fields, the first exactly
8 characters containing exactly two '/'. -/
def isTimestampLine (line : Str) : Bool :=
  match goFields line with
  | datePart :: _ :: _ => datePart.length == 8 && datePart.count '/' == 2
  | _ => false

/-- Go `parseIOStatTimestamp`: the first two whitespace fields joined by a
single space, parsed as "01/02/06 15:04:05". -/
def parseIOStatTimestamp (line : Str) : Option GoTime :=
  match goFields line with
  | p0 :: p1 :: _ => goParseDateTime (p0 ++ [' '] ++ p1)
  | _ => none

/-- Go `parseCPUStatsLine`: exactly 6 whitespace fields, each a float, with
a per-field error message ("failed to parse user CPU", ..; the wrapped
`strconv` cause is elided). -/
def parseCPUStatsLine (line : Str) : Except Str CPUStats :=
  let fields := goFields line
  if fields.length ≠ 6 then
    .error ((("expected 6 CPU stat fields, got ").toList) ++ Nat.toDigits 10 fields.length)
  else
    match goParseFloat (fields.getD 0 []) with
    | none => .error (("failed to parse user CPU").toList)
    | some user =>
      match goParseFloat (fields.getD 1 []) with
      | none => .error (("failed to parse nice CPU").toList)
      | some nice =>
        match goParseFloat (fields.getD 2 []) with
        | none => .error (("failed to parse system CPU").toList)
        | some system =>
          match goParseFloat (fields.getD 3 []) with
          | none => .error (("failed to parse iowait CPU").toList)
          | some iowait =>
            match goParseFloat (fields.getD 4 []) with
            | none => .error (("failed to parse steal CPU").toList)
            | some steal =>
              match goParseFloat (fields.getD 5 []) with
              | none => .error (("failed to parse idle CPU").toList)
              | some idle => .ok ⟨user, nice, system, iowait, steal, idle⟩

/-- The numeric-column loop of Go `parseDeviceStatsLine`: parse each field
as a float, failing with the 1-based field index ("failed to parse field
%d"; the wrapped `strconv` cause is elided). -/
def parseFloatColumns : List Str → Nat → Except Str (List GoFloat)
  | [], _ => .ok []
  | f :: rest, i =>
    match goParseFloat f with
    | none => .error ((("failed to parse field ").toList) ++ Nat.toDigits 10 i)
    | some v =>
      match parseFloatColumns rest (i + 1) with
      | .error e => .error e
      | .ok vs => .ok (v :: vs)

/-- Field assignment of Go `parseDeviceStatsLine`: `values[0] .. values[21]`
into the named columns (always called with a 22-element list). -/
def mkDeviceStats (dev : Str) (vs : List GoFloat) : DeviceStats :=
  { device := dev
    readsPerS := vs.getD 0 gfZero
    readKBPerS := vs.getD 1 gfZero
    readReqMergedPerS := vs.getD 2 gfZero
    readReqMergedPct := vs.getD 3 gfZero
    readAwait := vs.getD 4 gfZero
    readReqSize := vs.getD 5 gfZero
    writesPerS := vs.getD 6 gfZero
    writeKBPerS := vs.getD 7 gfZero
    writeReqMergedPerS := vs.getD 8 gfZero
    writeReqMergedPct := vs.getD 9 gfZero
    writeAwait := vs.getD 10 gfZero
    writeReqSize := vs.getD 11 gfZero
    discardsPerS := vs.getD 12 gfZero
    discardKBPerS := vs.getD 13 gfZero
    discardReqMergedPerS := vs.getD 14 gfZero
    discardReqMergedPct := vs.getD 15 gfZero
    discardAwait := vs.getD 16 gfZero
    discardReqSize := vs.getD 17 gfZero
    flushesPerS := vs.getD 18 gfZero
    flushAwait := vs.getD 19 gfZero
    avgQueueSize := vs.getD 20 gfZero
    utilization := vs.getD 21 gfZero }

/-- Go `parseDeviceStatsLine`: exactly 23 whitespace fields (device name
plus 22 floats), else an error naming the field count or the failing field
index. -/
def parseDeviceStatsLine (line : Str) : Except Str DeviceStats :=
  let fields := goFields line
  if fields.length ≠ 23 then
    .error ((("expected 23 device stat fields, got ").toList) ++ Nat.toDigits 10 fields.length)
  else
    match parseFloatColumns (fields.drop 1) 1 with
    | .error e => .error e
    | .ok vs => .ok (mkDeviceStats (fields.getD 0 []) vs)

/-- The accumulation state of `ParseIOStat`: finished snapshots, the open
snapshot (`currentSnapshot`, nilable), the captured system-info line, and
the `inDeviceSection` / `expectingCPUStats` flags. -/
structure IOState where
  snapshots : List IOStatSnapshot
  current : Option IOStatSnapshot
  systemInfo : Str
  inDeviceSection : Bool
  expectingCPUStats : Bool
deriving DecidableEq, Repr

/-- The initial `ParseIOStat` state. -/
def iostatInitState : IOState :=
  ⟨[], none, [], false, false⟩

/-- Error message of a second timestamp while CPU statistics are pending. -/
def msgTsAfterTs : Str :=
  ("expected CPU statistics after timestamp, but found another timestamp").toList

/-- Error message of end of input while CPU statistics are pending. -/
def msgTsEOF : Str :=
  ("expected CPU statistics after timestamp, but reached end of file").toList

/-- Error message of an unparsable timestamp line (the wrapped `time.Parse`
cause is elided). -/
def msgParseTs : Str :=
  ("failed to parse timestamp").toList

/-- Error message of a CPU statistics header out of sequence. -/
def msgUnexpectedCpuHdr : Str :=
  ("unexpected CPU statistics header").toList

/-- Error message of a CPU statistics line with the wrong field count. -/
def msgCpuFieldCount (n : Nat) : Str :=
  (("expected CPU statistics with 6 fields, got ").toList) ++ Nat.toDigits 10 n ++
    ((" fields").toList)

/-- Body of one `ParseIOStat` loop step on the already-trimmed line, at
1-based line number `n`. -/
def stepIOStatLine (s : IOState) (n : Nat) (line : Str) : Except IOErr IOState :=
  if line = [] then .ok s
  else if s.systemInfo = [] ∧ containsSubstr line (("Linux").toList) then
    .ok { s with systemInfo := line }
  else if isTimestampLine line then
    match s.current, s.expectingCPUStats with
    | some _, true => .error ⟨n, msgTsAfterTs⟩
    | _, _ =>
      match parseIOStatTimestamp line with
      | none => .error ⟨n, msgParseTs⟩
      | some t =>
        .ok { snapshots := s.snapshots ++ s.current.toList
              current := some ⟨t, none, []⟩
              systemInfo := s.systemInfo
              inDeviceSection := false
              expectingCPUStats := true }
  else if goStartsWith line (("avg-cpu:").toList) ∧ s.current.isSome then
    if s.expectingCPUStats = false then .error ⟨n, msgUnexpectedCpuHdr⟩
    else .ok { s with inDeviceSection := false }
  else
    match s.current with
    | some c =>
      if s.expectingCPUStats ∧ c.cpuStats = none ∧
          ¬ goStartsWith line (("Device").toList) ∧
          ¬ goStartsWith line (("avg-cpu:").toList) ∧
          ¬ isTimestampLine line then
        if (goFields line).length = 6 then
          match parseCPUStatsLine line with
          | .error e => .error ⟨n, (("failed to parse CPU statistics: ").toList) ++ e⟩
          | .ok cpu =>
            .ok { s with current := some { c with cpuStats := some cpu }
                         expectingCPUStats := false }
        else if (goFields line).length > 0 then
          .error ⟨n, msgCpuFieldCount (goFields line).length⟩
        else .ok s
      else if goStartsWith line (("Device").toList) then
        .ok { s with inDeviceSection := true }
      else if s.inDeviceSection then
        match parseDeviceStatsLine line with
        | .error e => .error ⟨n, (("failed to parse device statistics: ").toList) ++ e⟩
        | .ok d => .ok { s with current := some { c with devices := c.devices ++ [d] } }
      else .ok s
    | none =>
      if goStartsWith line (("Device").toList) then
        .ok { s with inDeviceSection := true }
      else .ok s

/-- One line step of the `ParseIOStat` loop: trim, then dispatch. -/
def stepIOStat (s : IOState) (n : Nat) (raw : Str) : Except IOErr IOState :=
  stepIOStatLine s n (goTrimSpace raw)

/-- The `ParseIOStat` loop: process the lines after the first `n`, stopping
at the first structural error. -/
def runIOStat : IOState → Nat → List Str → Except IOErr IOState
  | s, _, [] => .ok s
  | s, n, l :: rest =>
    match stepIOStat s (n + 1) l with
    | .error e => .error e
    | .ok s2 => runIOStat s2 (n + 1) rest

/-- End-of-input handling of `ParseIOStat` (`total` is the number of
scanned lines, the final value of `lineNumber`). -/
def finishIOStat (total : Nat) (s : IOState) : Except IOErr IOStatReportData :=
  match s.current with
  | some c =>
    if s.expectingCPUStats then .error ⟨total, msgTsEOF⟩
    else .ok ⟨s.systemInfo, s.snapshots ++ [c]⟩
  | none => .ok ⟨s.systemInfo, s.snapshots⟩

/-- Go `ParseIOStat` over the scanned lines (the empty-content early return
coincides with running on no lines). -/
def ParseIOStat (lines : List Str) : Except IOErr IOStatReportData :=
  match runIOStat iostatInitState 0 lines with
  | .error e => .error e
  | .ok s => finishIOStat lines.length s

/-- The tally logic of `analyzeFileList` returns the first type, in
priority order jfr, ttop, iostat, matched by at least one member name. -/
lemma analyzeFileList_eq_any (fs : List Str) :
    analyzeFileList fs =
      (if fs.any (fun f => detectFileTypeByName f == FileType.jfr) then FileType.jfr
       else if fs.any (fun f => detectFileTypeByName f == FileType.ttop) then FileType.ttop
       else if fs.any (fun f => detectFileTypeByName f == FileType.iostat) then FileType.iostat
       else FileType.archive) := by
  simp only [analyzeFileList, gt_iff_lt, List.countP_pos_iff, List.any_eq_true]

/-- The entry-name list the detector classifies an archive by: the ZIP
member names when the buffer is a readable ZIP, else the TAR member names
(the empty list when neither format is readable). -/
def chosenEntries (zipEntryNames tarEntryNames : Str → List Str) (content : Str) : List Str :=
  if zipEntryNames content ≠ [] then zipEntryNames content else tarEntryNames content

/-- C1: for an archive extension, detection is a function of the entry-name
list produced by the first decodable format (ZIP, then TAR, gzipped or
plain): jfr when some entry name matches the filename-only jfr rule, else
ttop, else iostat, else archive; never unknown. -/
theorem c1_archive_classification
    (zipEntryNames tarEntryNames : Str → List Str) (filename content : Str)
    (h : isArchive (goToLower (goExt filename)) = true) :
    (DetectFileType zipEntryNames tarEntryNames filename content =
      (if (chosenEntries zipEntryNames tarEntryNames content).any
            (fun f => detectFileTypeByName f == FileType.jfr) then FileType.jfr
       else if (chosenEntries zipEntryNames tarEntryNames content).any
            (fun f => detectFileTypeByName f == FileType.ttop) then FileType.ttop
       else if (chosenEntries zipEntryNames tarEntryNames content).any
            (fun f => detectFileTypeByName f == FileType.iostat) then FileType.iostat
       else FileType.archive)) ∧
    DetectFileType zipEntryNames tarEntryNames filename content ≠ FileType.unknown := by
  have hD : DetectFileType zipEntryNames tarEntryNames filename content =
      detectArchiveContent zipEntryNames tarEntryNames content := by
    simp [DetectFileType, h]
  have heq : DetectFileType zipEntryNames tarEntryNames filename content =
      (if (chosenEntries zipEntryNames tarEntryNames content).any
            (fun f => detectFileTypeByName f == FileType.jfr) then FileType.jfr
       else if (chosenEntries zipEntryNames tarEntryNames content).any
            (fun f => detectFileTypeByName f == FileType.ttop) then FileType.ttop
       else if (chosenEntries zipEntryNames tarEntryNames content).any
            (fun f => detectFileTypeByName f == FileType.iostat) then FileType.iostat
       else FileType.archive) := by
    rw [hD]
    by_cases hz : zipEntryNames content = []
    · by_cases ht : tarEntryNames content = []
      · simp [detectArchiveContent, chosenEntries, hz, ht]
      · simp only [detectArchiveContent, chosenEntries, hz, ht, List.length_nil,
          lt_irrefl, ne_eq, not_true_eq_false, if_false, not_false_eq_true, if_true]
        simp [List.length_pos.mpr ht, analyzeFileList_eq_any]
    · simp only [detectArchiveContent, chosenEntries, ne_eq, hz, not_false_eq_true, if_true]
      simp [List.length_pos.mpr hz, analyzeFileList_eq_any]
  refine ⟨heq, ?_⟩
  rw [heq]
  split
  · simp
  · split
    · simp
    · split
      · simp
      · simp

/-- Witness for C1: a ".zip" whose ZIP member list is a single ".jfr" name
is classified `jfr`. -/
theorem c1_witness :
    DetectFileType (fun _ => [("profile.jfr").toList]) (fun _ => [])
      (("a.zip").toList) [] = FileType.jfr := by
  exact (c1_archive_classification (fun _ => [("profile.jfr").toList]) (fun _ => [])
    (("a.zip").toList) [] (by decide)).1.trans (by decide)

/-- C2: for a non-archive extension and non-empty content, content sniffing
(ttop heuristic, then iostat heuristic, on the first 1000 bytes) takes
priority over the filename; only when neither heuristic matches does the
filename-only sub-rule decide (jfr by ".jfr" extension, ttop by base name
containing "ttop" with ".txt" or empty extension, iostat by base name
containing "iostat", else unknown). -/
theorem c2_nonarchive_detection
    (zipEntryNames tarEntryNames : Str → List Str) (filename content : Str)
    (h1 : isArchive (goToLower (goExt filename)) = false) (h2 : content ≠ []) :
    (DetectFileType zipEntryNames tarEntryNames filename content =
      (if isTTopFile content then FileType.ttop
       else if isIOStatFile content then FileType.iostat
       else if goToLower (goExt filename) = (".jfr").toList then FileType.jfr
       else if containsSubstr (goToLower (goBase filename)) (("ttop").toList) ∧
           (goToLower (goExt filename) = (".txt").toList ∨ goToLower (goExt filename) = [])
         then FileType.ttop
       else if containsSubstr (goToLower (goBase filename)) (("iostat").toList)
         then FileType.iostat
       else FileType.unknown)) ∧
    isTTopFile content =
      (containsSubstr (content.take 1000) (("PID").toList) &&
        containsSubstr (content.take 1000) (("USER").toList) &&
        (containsSubstr (content.take 1000) (("TIME").toList) ||
          containsSubstr (content.take 1000) (("%CPU").toList))) ∧
    isIOStatFile content =
      (containsSubstr (content.take 1000) (("Device").toList) &&
        (containsSubstr (content.take 1000) (("tps").toList) ||
          containsSubstr (content.take 1000) (("kB_read/s").toList) ||
          containsSubstr (content.take 1000) (("r/s").toList))) := by
  refine ⟨?_, rfl, rfl⟩
  have hlen : 0 < content.length := List.length_pos.mpr h2
  simp only [DetectFileType, h1, Bool.false_eq_true, if_false, hlen, true_and]

/-- Witness for C2: content matching the ttop heuristic wins over an
uninformative ".txt" filename. -/
theorem c2_witness :
    DetectFileType (fun _ => []) (fun _ => [])
      (("x.txt").toList) (("PID USER TIME").toList) = FileType.ttop := by
  exact (c2_nonarchive_detection (fun _ => []) (fun _ => [])
    (("x.txt").toList) (("PID USER TIME").toList) (by decide) (by decide)).1.trans (by decide)

/-- C8: a candidate thread row with fewer than 12 whitespace fields, or a
non-integer field 0, is rejected and (inside an open snapshot) leaves the
state unchanged; otherwise a `ThreadInfo` with PID = field 0, user =
field 1, CPU% = field 8 and MEM% = field 9 (each 0.0 when unparsable) and
command = fields 11.. joined by single spaces is appended to the open
snapshot's thread list. -/
theorem c8_thread_row_rule (line : Str) :
    ((goFields line).length < 12 → parseThreadLine line = none) ∧
    (12 ≤ (goFields line).length → goAtoi ((goFields line).getD 0 []) = none →
      parseThreadLine line = none) ∧
    (∀ pid, 12 ≤ (goFields line).length →
      goAtoi ((goFields line).getD 0 []) = some pid →
      parseThreadLine line = some
        { pid := pid
          user := (goFields line).getD 1 []
          cpu := (goParseFloat ((goFields line).getD 8 [])).getD gfZero
          mem := (goParseFloat ((goFields line).getD 9 [])).getD gfZero
          command := List.intercalate ([' ']) ((goFields line).drop 11) }) ∧
    (∀ now s c, s.current = some c → goTrimSpace line ≠ [] →
      goStartsWith (goTrimSpace line) (("top - ").toList) = false →
      goStartsWith (goTrimSpace line) (("Threads:").toList) = false →
      goStartsWith (goTrimSpace line) (("MiB Mem").toList) = false →
      goStartsWith (goTrimSpace line) (("MiB Swap").toList) = false →
      (parseThreadLine (goTrimSpace line) = none → stepTTop now s line = s) ∧
      (∀ ti, parseThreadLine (goTrimSpace line) = some ti →
        stepTTop now s line =
          { s with current := some { c with threads := c.threads ++ [ti] } })) := by
  refine ⟨?_, ?_, ?_, ?_⟩
  · intro h
    simp only [parseThreadLine, h, if_true]
  · intro h hAtoi
    simp only [parseThreadLine, Nat.not_lt.mpr h, if_false, hAtoi]
  · intro pid h hAtoi
    simp only [parseThreadLine, Nat.not_lt.mpr h, if_false, hAtoi]
  · intro now s c hcur hne hp1 hp2 hp3 hp4
    constructor
    · intro hparse
      simp only [stepTTop, stepTTopLine, hne, if_neg hne, hp1, hp2, hp3, hp4, hcur,
        hparse, Bool.false_eq_true, if_false]
    · intro ti hparse
      simp only [stepTTop, stepTTopLine, hne, if_neg hne, hp1, hp2, hp3, hp4, hcur,
        hparse, Bool.false_eq_true, if_false]

/-- Witness for C8: a 13-field row with integer PID 1234 and an unparsable
MEM field is kept with MEM defaulted to 0.0. -/
theorem c8_witness :
    parseThreadLine (("1234 root 20 0 1g 2g 3g R 25.5 abc 0:30 java -jar").toList) =
      some { pid := 1234
             user := ("root").toList
             cpu := ⟨("25.5").toList⟩
             mem := gfZero
             command := ("java -jar").toList } := by
  exact (c8_thread_row_rule (("1234 root 20 0 1g 2g 3g R 25.5 abc 0:30 java -jar").toList)).2.2.1
    1234 (by decide) (by decide) |>.trans (by decide)

/-- The timestamps of the snapshots collected so far, the open one last. -/
def tsListOf (s : TTopState) : List GoTime :=
  s.snapshots.map (fun sn => sn.timestamp) ++
    (s.current.map (fun sn => sn.timestamp)).toList

/-- A trimmed line that does not open a snapshot preserves the snapshot
list and the open snapshot's timestamp. -/
lemma stepTTopLine_nonheader (now : GoTime) (s : TTopState) (line : Str)
    (h : goStartsWith line (("top - ").toList) = false) :
    tsListOf (stepTTopLine now s line) = tsListOf s := by
  obtain ⟨snaps, cur⟩ := s
  unfold stepTTopLine
  by_cases hb : line = []
  · rw [if_pos hb]
  · rw [if_neg hb, if_neg (by simp only [Bool.not_eq_true]; exact h)]
    rcases cur with _ | c
    · rfl
    · simp only []
      by_cases h1 : goStartsWith line (("Threads:").toList) = true
      · rw [if_pos h1]
        rcases hp : parseThreadCountsLine line with _ | tc <;> simp [hp, tsListOf]
      · rw [if_neg h1]
        by_cases h2 : goStartsWith line (("MiB Mem").toList) = true
        · rw [if_pos h2]
          simp [tsListOf]
        · rw [if_neg h2]
          by_cases h3 : goStartsWith line (("MiB Swap").toList) = true
          · rw [if_pos h3]
            simp [tsListOf]
          · rw [if_neg h3]
            rcases hp : parseThreadLine line with _ | ti <;> simp [hp, tsListOf]

/-- A trimmed "top - " line finalizes the open snapshot and opens a fresh
one with the parsed (or fallen-back) timestamp. -/
lemma stepTTopLine_header (now : GoTime) (s : TTopState) (line : Str)
    (h : goStartsWith line (("top - ").toList) = true) :
    stepTTopLine now s line =
      { snapshots := s.snapshots ++ s.current.toList
        current := some ⟨(parseTimestampFromTopLine now line).getD now,
          none, none, []⟩ } := by
  have hb : line ≠ [] := by
    intro hcontra
    rw [hcontra] at h
    exact absurd h (by decide)
  unfold stepTTopLine
  rw [if_neg hb, if_pos h]

/-- Snapshot timestamps accumulated by the `ParseTTop` loop: one per
trimmed line beginning "top - ", in line order. -/
lemma foldTTop_tsList (now : GoTime) (lines : List Str) : ∀ s : TTopState,
    tsListOf (List.foldl (stepTTop now) s lines) =
      tsListOf s ++
        ((lines.map goTrimSpace).filter
            (fun l => goStartsWith l (("top - ").toList))).map
          (fun l => (parseTimestampFromTopLine now l).getD now) := by
  induction lines with
  | nil => intro s; simp
  | cons raw rest ih =>
    intro s
    simp only [List.foldl_cons, List.map_cons, List.filter_cons]
    rw [ih]
    unfold stepTTop
    by_cases h : goStartsWith (goTrimSpace raw) (("top - ").toList) = true
    · rw [stepTTopLine_header now s (goTrimSpace raw) h, h]
      simp only [if_true]
      simp only [tsListOf, List.map_append, List.map_cons]
      cases s.current <;> simp
    · have h' : goStartsWith (goTrimSpace raw) (("top - ").toList) = false := by
        simpa using h
      rw [stepTTopLine_nonheader now s (goTrimSpace raw) h']
      simp only [h', Bool.false_eq_true, if_false]

/-- C3: the snapshots returned by `ParseTTop` correspond one-to-one and in
order to the trimmed input lines beginning "top - ": the timestamp sequence
is the per-header timestamp of each such line in line order, and the
snapshot count equals the number of such lines. -/
theorem c3_snapshot_correspondence (now : GoTime) (lines : List Str) :
    (parseTTopLines now lines).snapshots.map (fun sn => sn.timestamp) =
      ((lines.map goTrimSpace).filter
          (fun l => goStartsWith l (("top - ").toList))).map
        (fun l => (parseTimestampFromTopLine now l).getD now) ∧
    (parseTTopLines now lines).snapshots.length =
      (lines.map goTrimSpace).countP
        (fun l => goStartsWith l (("top - ").toList)) := by
  have hts := foldTTop_tsList now lines ⟨[], none⟩
  have hmap : (parseTTopLines now lines).snapshots.map (fun sn => sn.timestamp) =
      tsListOf (List.foldl (stepTTop now) ⟨[], none⟩ lines) := by
    simp only [parseTTopLines, tsListOf, List.map_append]
    cases (List.foldl (stepTTop now) ⟨[], none⟩ lines).current <;> simp
  have hmain : (parseTTopLines now lines).snapshots.map (fun sn => sn.timestamp) =
      ((lines.map goTrimSpace).filter
          (fun l => goStartsWith l (("top - ").toList))).map
        (fun l => (parseTimestampFromTopLine now l).getD now) := by
    rw [hmap, hts]
    rfl
  refine ⟨hmain, ?_⟩
  have hlen := congrArg List.length hmain
  simpa [List.countP_eq_length_filter] using hlen

/-- C7: `ParseTTop` never reports a structural error — the error channel is
the line scanner's, which cannot fire for an in-memory buffer — so every
input yields a report; empty input yields an empty snapshot sequence, and a
"top - " header whose embedded time does not parse still opens a snapshot,
with the wall-clock `now` substituted for the timestamp. -/
theorem c7_never_fails (now : GoTime) (lines : List Str) :
    (∃ data, ParseTTop now lines = .ok data) ∧
    ParseTTop now [] = .ok ⟨[]⟩ ∧
    (∀ s raw, goStartsWith (goTrimSpace raw) (("top - ").toList) = true →
      parseTimestampFromTopLine now (goTrimSpace raw) = none →
      stepTTop now s raw =
        { snapshots := s.snapshots ++ s.current.toList
          current := some ⟨now, none, none, []⟩ }) := by
  refine ⟨⟨parseTTopLines now lines, rfl⟩, rfl, ?_⟩
  intro s raw hh hparse
  show stepTTopLine now s (goTrimSpace raw) = _
  rw [stepTTopLine_header now s (goTrimSpace raw) hh, hparse]
  rfl

/-- Witness for C7: the empty input and a malformed "top - " header at a
concrete state. -/
theorem c7_witness :
    ParseTTop ⟨2026, 1, 1, 0, 0, 0⟩ [] = .ok ⟨[]⟩ ∧
    stepTTop ⟨2026, 1, 1, 0, 0, 0⟩ ⟨[], none⟩ (("top - up").toList) =
      { snapshots := [], current := some ⟨⟨2026, 1, 1, 0, 0, 0⟩, none, none, []⟩ } := by
  refine ⟨(c7_never_fails ⟨2026, 1, 1, 0, 0, 0⟩ []).2.1, ?_⟩
  have h := (c7_never_fails ⟨2026, 1, 1, 0, 0, 0⟩ []).2.2 ⟨[], none⟩
    (("top - up").toList) (by decide) (by decide)
  simpa using h

/-- Processing concatenated line lists: run the first part, then continue
from its final state with the line counter advanced. -/
lemma runIOStat_append (as bs : List Str) : ∀ (s : IOState) (n : Nat),
    runIOStat s n (as ++ bs) =
      (match runIOStat s n as with
       | .error e => .error e
       | .ok s2 => runIOStat s2 (n + as.length) bs) := by
  induction as with
  | nil =>
    intro s n
    simp [runIOStat]
  | cons a rest ih =>
    intro s n
    simp only [List.cons_append, runIOStat]
    cases hstep : stepIOStat s (n + 1) a with
    | error e => rfl
    | ok s2 =>
      dsimp only
      show runIOStat s2 (n + 1) (rest ++ bs) = _
      rw [ih s2 (n + 1)]
      have hn : n + 1 + rest.length = n + (a :: rest).length := by
        simp only [List.length_cons]
        omega
      rw [hn]

/-- Lines that are blank after trimming leave the state unchanged. -/
lemma runIOStat_blanks : ∀ (bs : List Str), (∀ b ∈ bs, goTrimSpace b = []) →
    ∀ (s : IOState) (n : Nat), runIOStat s n bs = .ok s := by
  intro bs
  induction bs with
  | nil =>
    intro _ s n
    rfl
  | cons b rest ih =>
    intro hb s n
    have hb1 : goTrimSpace b = [] := hb b (by simp)
    have hrest : ∀ x ∈ rest, goTrimSpace x = [] := fun x hx => hb x (by simp [hx])
    have hstep : stepIOStat s (n + 1) b = .ok s := by
      unfold stepIOStat
      rw [hb1]
      rfl
    simp only [runIOStat, hstep]
    exact ih hrest s (n + 1)

/-- Behaviour of a timestamp-shaped trimmed line that is not captured as
the system-info line: fail if CPU statistics are still pending, else fail
if the date-time does not parse, else finalize and open a snapshot. -/
lemma stepIOStatLine_timestamp (s : IOState) (n : Nat) (line : Str)
    (hLinux : s.systemInfo = [] → containsSubstr line (("Linux").toList) = false)
    (hts : isTimestampLine line = true) :
    stepIOStatLine s n line =
      (match s.current, s.expectingCPUStats with
       | some _, true => .error ⟨n, msgTsAfterTs⟩
       | _, _ =>
         match parseIOStatTimestamp line with
         | none => .error ⟨n, msgParseTs⟩
         | some t =>
           .ok { snapshots := s.snapshots ++ s.current.toList
                 current := some ⟨t, none, []⟩
                 systemInfo := s.systemInfo
                 inDeviceSection := false
                 expectingCPUStats := true }) := by
  have hb : line ≠ [] := by
    intro hc
    rw [hc] at hts
    exact absurd hts (by decide)
  have hnl : ¬ (s.systemInfo = [] ∧ containsSubstr line (("Linux").toList) = true) := by
    rintro ⟨h1, h2⟩
    rw [hLinux h1] at h2
    exact absurd h2 (by decide)
  unfold stepIOStatLine
  rw [if_neg hb, if_neg hnl, if_pos hts]



/-- The invariant behind C6: every finished snapshot has CPU statistics,
and so does the open snapshot unless they are still expected. -/
def InvIO (s : IOState) : Prop :=
  (∀ snap ∈ s.snapshots, snap.cpuStats.isSome = true) ∧
  (s.expectingCPUStats = false → ∀ c, s.current = some c → c.cpuStats.isSome = true)

/-- Each successful `ParseIOStat` step preserves the C6 invariant. -/
lemma stepIOStatLine_inv (s : IOState) (n : Nat) (line : Str) (s2 : IOState)
    (h : stepIOStatLine s n line = .ok s2) (hInv : InvIO s) : InvIO s2 := by
  obtain ⟨hSnaps, hCur⟩ := hInv
  unfold stepIOStatLine at h
  split at h
  · cases h
    exact ⟨hSnaps, hCur⟩
  · split at h
    · cases h
      exact ⟨hSnaps, hCur⟩
    · split at h
      · split at h
        · exact Except.noConfusion h
        · rename_i hnotboth
          split at h
          · exact Except.noConfusion h
          · cases h
            refine ⟨?_, ?_⟩
            · intro snap hmem
              rcases List.mem_append.mp hmem with hmem2 | hmem2
              · exact hSnaps snap hmem2
              · rcases hc : s.current with _ | c
                · rw [hc] at hmem2
                  simp at hmem2
                · rw [hc] at hmem2
                  simp only [Option.toList_some, List.mem_singleton] at hmem2
                  subst hmem2
                  rcases hexp : s.expectingCPUStats with _ | _
                  · exact hCur hexp snap hc
                  · exact (hnotboth snap hc hexp).elim
            · intro hexp
              simp at hexp
      · split at h
        · split at h
          · exact Except.noConfusion h
          · cases h
            exact ⟨hSnaps, hCur⟩
        · split at h
          · rename_i c hsome
            split at h
            · split at h
              · split at h
                · exact Except.noConfusion h
                · cases h
                  refine ⟨hSnaps, ?_⟩
                  intro _ c2 hc2
                  simp only [Option.some.injEq] at hc2
                  subst hc2
                  simp
              · split at h
                · exact Except.noConfusion h
                · cases h
                  exact ⟨hSnaps, hCur⟩
            · split at h
              · cases h
                exact ⟨hSnaps, hCur⟩
              · split at h
                · split at h
                  · exact Except.noConfusion h
                  · cases h
                    refine ⟨hSnaps, ?_⟩
                    intro hexp c2 hc2
                    simp only [Option.some.injEq] at hc2
                    subst hc2
                    simpa using hCur hexp c hsome
                · cases h
                  exact ⟨hSnaps, hCur⟩
          · rename_i hnone
            split at h
            · cases h
              refine ⟨hSnaps, ?_⟩
              intro hexp c2 hc2
              rw [hnone] at hc2
              exact Option.noConfusion hc2
            · cases h
              exact ⟨hSnaps, hCur⟩

/-- The C6 invariant holds at every successfully reached parser state. -/
lemma runIOStat_inv : ∀ (lines : List Str) (s : IOState) (n : Nat) (s2 : IOState),
    runIOStat s n lines = .ok s2 → InvIO s → InvIO s2 := by
  intro lines
  induction lines with
  | nil =>
    intro s n s2 h hInv
    cases h
    exact hInv
  | cons l rest ih =>
    intro s n s2 h hInv
    simp only [runIOStat] at h
    cases hstep : stepIOStat s (n + 1) l with
    | error e =>
      rw [hstep] at h
      exact Except.noConfusion h
    | ok s3 =>
      rw [hstep] at h
      exact ih s3 (n + 1) s2 h (stepIOStatLine_inv s (n + 1) (goTrimSpace l) s3 hstep hInv)

/-- C6: whenever `ParseIOStat` succeeds, every returned snapshot carries
CPU statistics; and a state reached at end of input with an open snapshot
still expecting its CPU statistics is never finalized — `ParseIOStat` fails
with "expected CPU statistics after timestamp, but reached end of file" at
the final line number. -/
theorem c6_cpustats_mandatory (lines : List Str) :
    (∀ data, ParseIOStat lines = .ok data →
      data.snapshots.all (fun snap => snap.cpuStats.isSome) = true) ∧
    (∀ s c, runIOStat iostatInitState 0 lines = .ok s → s.current = some c →
      s.expectingCPUStats = true →
      ParseIOStat lines = .error ⟨lines.length, msgTsEOF⟩) := by
  constructor
  · intro data hdata
    unfold ParseIOStat at hdata
    cases hrun : runIOStat iostatInitState 0 lines with
    | error e =>
      rw [hrun] at hdata
      exact Except.noConfusion hdata
    | ok s =>
      rw [hrun] at hdata
      dsimp only at hdata
      have hInit : InvIO iostatInitState := by
        refine ⟨by simp [iostatInitState], ?_⟩
        intro _ c hc
        exact Option.noConfusion hc
      have hInv : InvIO s := runIOStat_inv lines iostatInitState 0 s hrun hInit
      unfold finishIOStat at hdata
      rcases hc : s.current with _ | c
      · rw [hc] at hdata
        dsimp only at hdata
        cases hdata
        rw [List.all_eq_true]
        intro snap hmem
        exact hInv.1 snap hmem
      · rw [hc] at hdata
        dsimp only at hdata
        split at hdata
        · exact Except.noConfusion hdata
        · rename_i hexp
          cases hdata
          rw [List.all_eq_true]
          intro snap hmem
          rcases List.mem_append.mp hmem with h1 | h1
          · exact hInv.1 snap h1
          · simp only [List.mem_singleton] at h1
            subst h1
            exact hInv.2 (by simpa using hexp) snap hc
  · intro s c hrun hcur hexp
    unfold ParseIOStat
    rw [hrun]
    dsimp only
    unfold finishIOStat
    rw [hcur]
    dsimp only
    rw [if_pos hexp]

/-- Witness for C6 on a two-line iostat input whose single snapshot has its
CPU statistics set. -/
theorem c6_witness :
    ({ systemInfo := []
       snapshots := [{ timestamp := ⟨2024, 9, 4, 12, 7, 20⟩
                       cpuStats := some ⟨⟨("1.0").toList⟩, ⟨("0.0").toList⟩,
                         ⟨("0.4").toList⟩, ⟨("0.0").toList⟩, ⟨("0.0").toList⟩,
                         ⟨("97.2").toList⟩⟩
                       devices := [] }] } : IOStatReportData).snapshots.all
      (fun snap => snap.cpuStats.isSome) = true := by
  exact (c6_cpustats_mandatory
    [(("09/04/24 12:07:20").toList), (("1.0 0.0 0.4 0.0 0.0 97.2").toList)]).1 _ (by rfl)

/-- Success test for `Except` results. -/
def exceptIsOk {ε α : Type} : Except ε α → Bool
  | .ok _ => true
  | .error _ => false

/-- The numeric-column loop succeeds exactly when every column parses. -/
lemma parseFloatColumns_isOk (fs : List Str) : ∀ i : Nat,
    exceptIsOk (parseFloatColumns fs i) =
      fs.all (fun f => (goParseFloat f).isSome) := by
  induction fs with
  | nil =>
    intro i
    rfl
  | cons f rest ih =>
    intro i
    unfold parseFloatColumns
    cases hp : goParseFloat f with
    | none => simp [exceptIsOk, hp]
    | some v =>
      cases hr : parseFloatColumns rest (i + 1) with
      | error e =>
        have := ih (i + 1)
        rw [hr] at this
        simp [exceptIsOk, hp, ← this]
      | ok vs =>
        have := ih (i + 1)
        rw [hr] at this
        simp [exceptIsOk, hp, ← this]

/-- A device row parses exactly when it has 23 whitespace fields whose 22
numeric columns all parse as floats. -/
lemma parseDeviceStatsLine_isOk (line : Str) :
    exceptIsOk (parseDeviceStatsLine line) =
      ((goFields line).length == 23 &&
        ((goFields line).drop 1).all (fun f => (goParseFloat f).isSome)) := by
  unfold parseDeviceStatsLine
  by_cases h : (goFields line).length ≠ 23
  · rw [if_pos h]
    have h2 : ((goFields line).length == 23) = false := by
      simpa using h
    simp [exceptIsOk, h2]
  · rw [if_neg h]
    have h' : (goFields line).length = 23 := by omega
    have h2 : ((goFields line).length == 23) = true := by
      simpa using h'
    cases hcols : parseFloatColumns ((goFields line).drop 1) 1 with
    | error e =>
      have hall := parseFloatColumns_isOk ((goFields line).drop 1) 1
      rw [hcols] at hall
      dsimp only
      rw [h2, Bool.true_and]
      exact hall
    | ok vs =>
      have hall := parseFloatColumns_isOk ((goFields line).drop 1) 1
      rw [hcols] at hall
      dsimp only
      rw [h2, Bool.true_and]
      exact hall

/-- A substring that is a literal beginning of a message is contained in
any extension of that message. -/
lemma containsSubstr_append_of_isPrefixOf (a b sub : Str)
    (h : List.isPrefixOf sub a = true) : containsSubstr (a ++ b) sub = true := by
  have h1 : sub <+: a := by rwa [List.isPrefixOf_iff_prefix] at h
  have h2 : sub <+: a ++ b := h1.trans (a.prefix_append b)
  cases hab : a ++ b with
  | nil =>
    have hsub : sub = [] := by
      have := hab ▸ h2
      simpa using this
    simp [containsSubstr, hsub]
  | cons x xs =>
    unfold containsSubstr
    rw [List.isPrefixOf_iff_prefix.mpr (hab ▸ h2)]
    simp

/-- A line starting with "avg-cpu:" cannot start with "Device". -/
lemma avgcpu_not_device (l : Str)
    (h : goStartsWith l (("avg-cpu:").toList) = true) :
    goStartsWith l (("Device").toList) = false := by
  rcases l with _ | ⟨c, t⟩
  · exact absurd h (by decide)
  · have h' := h
    rw [show (("avg-cpu:").toList) = 'a' :: (("vg-cpu:").toList) from rfl] at h'
    unfold goStartsWith List.isPrefixOf at h'
    simp only [Bool.and_eq_true, beq_iff_eq] at h'
    obtain ⟨hc, -⟩ := h'
    subst hc
    show List.isPrefixOf (("Device").toList) ('a' :: t) = false
    rw [show (("Device").toList) = 'D' :: (("evice").toList) from rfl]
    unfold List.isPrefixOf
    simp

/-- Counterexample to C4 as stated: between the two timestamp-shaped lines
stands a non-blank line with 2 (not 6) fields, so parsing fails earlier, at
that line, with the field-count message — which does not contain "expected
CPU statistics after timestamp" and does not carry the second timestamp's
line number. -/
theorem c4_counterexample :
    ParseIOStat [(("09/04/24 12:07:20").toList), (("x y").toList),
        (("09/04/24 12:07:21").toList)] =
      .error ⟨2, msgCpuFieldCount 2⟩ ∧
    containsSubstr (msgCpuFieldCount 2)
      (("expected CPU statistics after timestamp").toList) = false ∧
    isTimestampLine (goTrimSpace (("09/04/24 12:07:20").toList)) = true ∧
    isTimestampLine (goTrimSpace (("09/04/24 12:07:21").toList)) = true ∧
    (goFields (goTrimSpace (("x y").toList))).length ≠ 6 :=
  ⟨rfl, rfl, rfl, rfl, by decide⟩

/-- C4 (amended): when a parseable timestamp-shaped line — reached without
error, with no CPU statistics pending, and not captured as the system-info
line — is followed, with only blank lines in between, by another
timestamp-shaped line (also not system-info-captured), `ParseIOStat` fails
with "expected CPU statistics after timestamp, but found another timestamp"
at the 1-based line number of the second timestamp line. -/
theorem c4_amended (pre : List Str) (ts1 : Str) (blanks : List Str) (ts2 : Str)
    (rest : List Str) (s : IOState) (t : GoTime)
    (hrun : runIOStat iostatInitState 0 pre = .ok s)
    (hexp : s.expectingCPUStats = false)
    (hL1 : containsSubstr (goTrimSpace ts1) (("Linux").toList) = false)
    (hL2 : containsSubstr (goTrimSpace ts2) (("Linux").toList) = false)
    (hts1 : isTimestampLine (goTrimSpace ts1) = true)
    (hparse1 : parseIOStatTimestamp (goTrimSpace ts1) = some t)
    (hblanks : ∀ b ∈ blanks, goTrimSpace b = [])
    (hts2 : isTimestampLine (goTrimSpace ts2) = true) :
    ParseIOStat (pre ++ ts1 :: (blanks ++ ts2 :: rest)) =
      .error ⟨pre.length + 1 + blanks.length + 1, msgTsAfterTs⟩ ∧
    containsSubstr msgTsAfterTs
      (("expected CPU statistics after timestamp").toList) = true := by
  refine ⟨?_, by decide⟩
  have hstep1 : stepIOStat s (pre.length + 1) ts1 = .ok
      { snapshots := s.snapshots ++ s.current.toList
        current := some ⟨t, none, []⟩
        systemInfo := s.systemInfo
        inDeviceSection := false
        expectingCPUStats := true } := by
    show stepIOStatLine s (pre.length + 1) (goTrimSpace ts1) = _
    rw [stepIOStatLine_timestamp s (pre.length + 1) (goTrimSpace ts1)
      (fun _ => hL1) hts1, hexp]
    rcases hc : s.current with _ | c <;> dsimp only <;> simp only [hparse1]
  have hstep2 : stepIOStat
      { snapshots := s.snapshots ++ s.current.toList
        current := some ⟨t, none, []⟩
        systemInfo := s.systemInfo
        inDeviceSection := false
        expectingCPUStats := true }
      (pre.length + 1 + blanks.length + 1) ts2 =
      .error ⟨pre.length + 1 + blanks.length + 1, msgTsAfterTs⟩ := by
    show stepIOStatLine _ (pre.length + 1 + blanks.length + 1) (goTrimSpace ts2) = _
    rw [stepIOStatLine_timestamp _ (pre.length + 1 + blanks.length + 1)
      (goTrimSpace ts2) (fun _ => hL2) hts2]
  have hrunfull : runIOStat iostatInitState 0 (pre ++ ts1 :: (blanks ++ ts2 :: rest)) =
      .error ⟨pre.length + 1 + blanks.length + 1, msgTsAfterTs⟩ := by
    rw [runIOStat_append, hrun]
    dsimp only
    simp only [runIOStat, Nat.zero_add]
    rw [hstep1]
    dsimp only
    rw [runIOStat_append, runIOStat_blanks blanks hblanks]
    dsimp only
    simp only [runIOStat]
    rw [hstep2]
  unfold ParseIOStat
  rw [hrunfull]

/-- Witness for C4 (amended): two adjacent timestamp lines from the empty
initial state. -/
theorem c4_witness :
    ParseIOStat [(("09/04/24 12:07:20").toList), (("09/04/24 12:07:21").toList)] =
      .error ⟨2, msgTsAfterTs⟩ := by
  exact (c4_amended [] (("09/04/24 12:07:20").toList) [] (("09/04/24 12:07:21").toList)
    [] iostatInitState ⟨2024, 9, 4, 12, 7, 20⟩ rfl rfl (by decide) (by decide)
    (by decide) (by rfl) (by intro b hb; cases hb) (by decide)).1

/-- Counterexample to C10 as stated: a timestamp-shaped but unparsable line
that follows a timestamp still expecting its CPU statistics triggers the
"found another timestamp" error instead, so the failure message does not
contain "failed to parse timestamp". -/
theorem c10_counterexample :
    ParseIOStat [(("09/04/24 12:07:20").toList), (("13/31/99 26:00:00").toList)] =
      .error ⟨2, msgTsAfterTs⟩ ∧
    containsSubstr msgTsAfterTs (("failed to parse timestamp").toList) = false ∧
    isTimestampLine (goTrimSpace (("13/31/99 26:00:00").toList)) = true ∧
    parseIOStatTimestamp (goTrimSpace (("13/31/99 26:00:00").toList)) = none :=
  ⟨rfl, rfl, rfl, rfl⟩

/-- C10 (amended): a non-blank timestamp-shaped line whose first two tokens
do not parse as "MM/DD/YY HH:MM:SS" makes `ParseIOStat` fail with "failed
to parse timestamp" and the line's 1-based number, provided the line is
reached without error, is not captured as the system-info line, and no CPU
statistics are pending (an error case indeed absent from the spec's IOStat
error taxonomy). -/
theorem c10_amended (pre : List Str) (L : Str) (rest : List Str) (s : IOState)
    (hrun : runIOStat iostatInitState 0 pre = .ok s)
    (hLinux : s.systemInfo = [] → containsSubstr (goTrimSpace L) (("Linux").toList) = false)
    (hts : isTimestampLine (goTrimSpace L) = true)
    (hparse : parseIOStatTimestamp (goTrimSpace L) = none)
    (hnotpending : s.current = none ∨ s.expectingCPUStats = false) :
    ParseIOStat (pre ++ L :: rest) = .error ⟨pre.length + 1, msgParseTs⟩ ∧
    containsSubstr msgParseTs (("failed to parse timestamp").toList) = true := by
  refine ⟨?_, by decide⟩
  have hstep : stepIOStat s (pre.length + 1) L = .error ⟨pre.length + 1, msgParseTs⟩ := by
    show stepIOStatLine s (pre.length + 1) (goTrimSpace L) = _
    rw [stepIOStatLine_timestamp s (pre.length + 1) (goTrimSpace L) hLinux hts]
    rcases hnotpending with hc | hexp
    · rw [hc]
      dsimp only
      simp only [hparse]
    · rw [hexp]
      rcases hc : s.current with _ | c <;> dsimp only <;> simp only [hparse]
  have hrunfull : runIOStat iostatInitState 0 (pre ++ L :: rest) =
      .error ⟨pre.length + 1, msgParseTs⟩ := by
    rw [runIOStat_append, hrun]
    dsimp only
    simp only [runIOStat, Nat.zero_add]
    rw [hstep]
  unfold ParseIOStat
  rw [hrunfull]

/-- Witness for C10 (amended): a lone timestamp-shaped line with letters in
the date. -/
theorem c10_witness :
    ParseIOStat [(("ab/cd/ef 12:00:00").toList)] = .error ⟨1, msgParseTs⟩ := by
  exact (c10_amended [] (("ab/cd/ef 12:00:00").toList) [] iostatInitState rfl
    (fun _ => by decide) (by decide) (by decide) (Or.inl rfl)).1

/-- Counterexample to C9 as stated: an "avg-cpu:" line at the initial state
(no open snapshot, `expectingCPUStats` false) is silently ignored, and
`ParseIOStat` succeeds instead of failing. -/
theorem c9_counterexample :
    ParseIOStat [(("avg-cpu: foo").toList)] = .ok ⟨[], []⟩ ∧
    goStartsWith (goTrimSpace (("avg-cpu: foo").toList)) (("avg-cpu:").toList) = true ∧
    iostatInitState.expectingCPUStats = false :=
  ⟨rfl, rfl, rfl⟩

/-- C9 (amended): an "avg-cpu:"-prefixed line (not captured as the
system-info line, never timestamp-shaped) is silently ignored when no
snapshot is open; with an open snapshot it fails with a line-numbered
"unexpected CPU statistics header" when CPU statistics are not expected,
and is skipped clearing only `inDeviceSection` when they are. -/
theorem c9_amended (pre : List Str) (L : Str) (rest : List Str) (s : IOState)
    (hrun : runIOStat iostatInitState 0 pre = .ok s)
    (hLinux : s.systemInfo = [] → containsSubstr (goTrimSpace L) (("Linux").toList) = false)
    (havg : goStartsWith (goTrimSpace L) (("avg-cpu:").toList) = true)
    (hnotts : isTimestampLine (goTrimSpace L) = false) :
    (s.current = none → runIOStat iostatInitState 0 (pre ++ [L]) = .ok s) ∧
    (∀ c, s.current = some c → s.expectingCPUStats = false →
      ParseIOStat (pre ++ L :: rest) = .error ⟨pre.length + 1, msgUnexpectedCpuHdr⟩) ∧
    (∀ c, s.current = some c → s.expectingCPUStats = true →
      runIOStat iostatInitState 0 (pre ++ [L]) =
        .ok { s with inDeviceSection := false }) := by
  have hne : goTrimSpace L ≠ [] := by
    intro h0
    rw [h0] at havg
    exact absurd havg (by decide)
  have hnl : ¬ (s.systemInfo = [] ∧
      containsSubstr (goTrimSpace L) (("Linux").toList) = true) := by
    rintro ⟨h1, h2⟩
    rw [hLinux h1] at h2
    exact absurd h2 (by decide)
  refine ⟨?_, ?_, ?_⟩
  · intro hc
    have hstep : stepIOStat s (pre.length + 1) L = .ok s := by
      show stepIOStatLine s (pre.length + 1) (goTrimSpace L) = _
      unfold stepIOStatLine
      rw [if_neg hne, if_neg hnl, if_neg (by simp [hnotts]),
        if_neg (by rintro ⟨_, hsome⟩; rw [hc] at hsome; simp at hsome)]
      rw [hc]
      dsimp only
      rw [if_neg (by rw [Bool.not_eq_true]; exact avgcpu_not_device _ havg)]
    rw [runIOStat_append, hrun]
    dsimp only
    simp only [runIOStat, Nat.zero_add]
    rw [hstep]
  · intro c hc hexpf
    have hstep : stepIOStat s (pre.length + 1) L =
        .error ⟨pre.length + 1, msgUnexpectedCpuHdr⟩ := by
      show stepIOStatLine s (pre.length + 1) (goTrimSpace L) = _
      unfold stepIOStatLine
      rw [if_neg hne, if_neg hnl, if_neg (by simp [hnotts]),
        if_pos ⟨havg, by rw [hc]; rfl⟩, if_pos hexpf]
    have hrunfull : runIOStat iostatInitState 0 (pre ++ L :: rest) =
        .error ⟨pre.length + 1, msgUnexpectedCpuHdr⟩ := by
      rw [runIOStat_append, hrun]
      dsimp only
      simp only [runIOStat, Nat.zero_add]
      rw [hstep]
    unfold ParseIOStat
    rw [hrunfull]
  · intro c hc hexpt
    have hstep : stepIOStat s (pre.length + 1) L =
        .ok { s with inDeviceSection := false } := by
      show stepIOStatLine s (pre.length + 1) (goTrimSpace L) = _
      unfold stepIOStatLine
      rw [if_neg hne, if_neg hnl, if_neg (by simp [hnotts]),
        if_pos ⟨havg, by rw [hc]; rfl⟩, if_neg (by simp [hexpt])]
    rw [runIOStat_append, hrun]
    dsimp only
    simp only [runIOStat, Nat.zero_add]
    rw [hstep]

/-- Witness for C9 (amended): an "avg-cpu:" line after a completed CPU
block fails with "unexpected CPU statistics header" at its line number. -/
theorem c9_witness :
    ParseIOStat [(("Linux test").toList), (("09/04/24 12:07:20").toList),
        (("1.0 0.0 0.4 0.0 0.0 97.2").toList), (("avg-cpu: x").toList)] =
      .error ⟨4, msgUnexpectedCpuHdr⟩ := by
  exact (c9_amended [(("Linux test").toList), (("09/04/24 12:07:20").toList),
      (("1.0 0.0 0.4 0.0 0.0 97.2").toList)] (("avg-cpu: x").toList) []
      ⟨[], some ⟨⟨2024, 9, 4, 12, 7, 20⟩, some ⟨⟨("1.0").toList⟩, ⟨("0.0").toList⟩,
        ⟨("0.4").toList⟩, ⟨("0.0").toList⟩, ⟨("0.0").toList⟩, ⟨("97.2").toList⟩⟩, []⟩,
        (("Linux test").toList), false, false⟩
      (by rfl) (by intro h; exact absurd h (by decide)) (by decide) (by decide)).2.1
    _ rfl rfl

/-- Counterexample to C5 as stated: inside the device section, a 3-field
line containing "Linux" (the system-info line not yet captured) is consumed
as system info — parsing succeeds with no device appended instead of
failing with "failed to parse device statistics". -/
theorem c5_counterexample :
    ParseIOStat [(("09/04/24 12:07:20").toList), (("1.0 0.0 0.4 0.0 0.0 97.2").toList),
        (("Device hdr").toList), (("Linux 1 2").toList)] =
      .ok { systemInfo := ("Linux 1 2").toList
            snapshots := [{ timestamp := ⟨2024, 9, 4, 12, 7, 20⟩
                            cpuStats := some ⟨⟨("1.0").toList⟩, ⟨("0.0").toList⟩,
                              ⟨("0.4").toList⟩, ⟨("0.0").toList⟩, ⟨("0.0").toList⟩,
                              ⟨("97.2").toList⟩⟩
                            devices := [] }] } ∧
    (goFields (goTrimSpace (("Linux 1 2").toList))).length = 3 :=
  ⟨rfl, rfl⟩

/-- C5 (amended): with a snapshot open, its CPU statistics parsed, and its
device section entered, a subsequent trimmed non-blank line — one that is
not timestamp-shaped, not an "avg-cpu:" or "Device" header, and not
captured as the system-info line — parses as a device row exactly when it
has 23 whitespace fields whose 22 numeric columns are all floats; a
conforming row is appended in order to the open snapshot's device list, and
any violation fails `ParseIOStat` at that line's 1-based number with a
message containing "failed to parse device statistics". -/
theorem c5_amended (pre : List Str) (L : Str) (rest : List Str) (s : IOState)
    (c : IOStatSnapshot)
    (hrun : runIOStat iostatInitState 0 pre = .ok s)
    (hcur : s.current = some c)
    (hdev : s.inDeviceSection = true)
    (hexp : s.expectingCPUStats = false)
    (hLinux : s.systemInfo = [] → containsSubstr (goTrimSpace L) (("Linux").toList) = false)
    (hne : goTrimSpace L ≠ [])
    (hnotts : isTimestampLine (goTrimSpace L) = false)
    (hnotavg : goStartsWith (goTrimSpace L) (("avg-cpu:").toList) = false)
    (hnotdev : goStartsWith (goTrimSpace L) (("Device").toList) = false) :
    (exceptIsOk (parseDeviceStatsLine (goTrimSpace L)) =
      ((goFields (goTrimSpace L)).length == 23 &&
        ((goFields (goTrimSpace L)).drop 1).all (fun f => (goParseFloat f).isSome))) ∧
    (∀ d, parseDeviceStatsLine (goTrimSpace L) = .ok d →
      runIOStat iostatInitState 0 (pre ++ [L]) =
        .ok { s with current := some { c with devices := c.devices ++ [d] } }) ∧
    (∀ e, parseDeviceStatsLine (goTrimSpace L) = .error e →
      ParseIOStat (pre ++ L :: rest) =
        .error ⟨pre.length + 1, (("failed to parse device statistics: ").toList) ++ e⟩ ∧
      containsSubstr ((("failed to parse device statistics: ").toList) ++ e)
        (("failed to parse device statistics").toList) = true) := by
  have hnl : ¬ (s.systemInfo = [] ∧
      containsSubstr (goTrimSpace L) (("Linux").toList) = true) := by
    rintro ⟨h1, h2⟩
    rw [hLinux h1] at h2
    exact absurd h2 (by decide)
  have hstepBase : stepIOStat s (pre.length + 1) L =
      (match parseDeviceStatsLine (goTrimSpace L) with
       | .error e =>
         .error ⟨pre.length + 1, (("failed to parse device statistics: ").toList) ++ e⟩
       | .ok d => .ok { s with current := some { c with devices := c.devices ++ [d] } }) := by
    show stepIOStatLine s (pre.length + 1) (goTrimSpace L) = _
    unfold stepIOStatLine
    rw [if_neg hne, if_neg hnl, if_neg (by simp [hnotts]),
      if_neg (by rintro ⟨h1, _⟩; rw [hnotavg] at h1; exact absurd h1 (by decide))]
    rw [hcur]
    dsimp only
    rw [if_neg (by rintro ⟨h1, _⟩; rw [hexp] at h1; exact absurd h1 (by decide)),
      if_neg (by rw [Bool.not_eq_true]; exact hnotdev), if_pos hdev]
  refine ⟨parseDeviceStatsLine_isOk (goTrimSpace L), ?_, ?_⟩
  · intro d hd
    have hstep : stepIOStat s (pre.length + 1) L =
        .ok { s with current := some { c with devices := c.devices ++ [d] } } := by
      rw [hstepBase, hd]
    rw [runIOStat_append, hrun]
    dsimp only
    simp only [runIOStat, Nat.zero_add]
    rw [hstep]
  · intro e he
    have hstep : stepIOStat s (pre.length + 1) L =
        .error ⟨pre.length + 1, (("failed to parse device statistics: ").toList) ++ e⟩ := by
      rw [hstepBase, he]
    refine ⟨?_, containsSubstr_append_of_isPrefixOf _ _ _ (by decide)⟩
    have hrunfull : runIOStat iostatInitState 0 (pre ++ L :: rest) =
        .error ⟨pre.length + 1, (("failed to parse device statistics: ").toList) ++ e⟩ := by
      rw [runIOStat_append, hrun]
      dsimp only
      simp only [runIOStat, Nat.zero_add]
      rw [hstep]
    unfold ParseIOStat
    rw [hrunfull]

/-- Witness for C5 (amended): a 3-field row inside the device section fails
with the device-statistics message and its 1-based line number. -/
theorem c5_witness :
    ParseIOStat [(("Linux test").toList), (("09/04/24 12:07:20").toList),
        (("1.0 0.0 0.4 0.0 0.0 97.2").toList), (("Device hdr").toList),
        (("sda 1 2").toList)] =
      .error ⟨5, (("failed to parse device statistics: ").toList) ++
        (("expected 23 device stat fields, got 3").toList)⟩ := by
  exact ((c5_amended [(("Linux test").toList), (("09/04/24 12:07:20").toList),
      (("1.0 0.0 0.4 0.0 0.0 97.2").toList), (("Device hdr").toList)]
      (("sda 1 2").toList) []
      ⟨[], some ⟨⟨2024, 9, 4, 12, 7, 20⟩, some ⟨⟨("1.0").toList⟩, ⟨("0.0").toList⟩,
        ⟨("0.4").toList⟩, ⟨("0.0").toList⟩, ⟨("0.0").toList⟩, ⟨("97.2").toList⟩⟩, []⟩,
        (("Linux test").toList), true, false⟩
      ⟨⟨2024, 9, 4, 12, 7, 20⟩, some ⟨⟨("1.0").toList⟩, ⟨("0.0").toList⟩,
        ⟨("0.4").toList⟩, ⟨("0.0").toList⟩, ⟨("0.0").toList⟩, ⟨("97.2").toList⟩⟩, []⟩
      (by rfl) rfl rfl rfl
      (by intro h; exact absurd h (by decide))
      (by decide) (by decide) (by decide) (by decide)).2.2
    (("expected 23 device stat fields, got 3").toList) (by rfl)).1
